import Mathlib

/-!
Shallow embedding of the Freelance Marketplace Dashboard (src/app.py).

The program loads a spreadsheet into a dataframe, filters it by a
user-selected client country (sentinel string "All Countries" means no
filtering, app.py lines 71-75), and computes:
  * overview metrics over the unfiltered dataframe (lines 43-45),
  * per-skill-category mean price and mean friction, merged on the
    category key (lines 78-80),
  * per-country row counts, top 10 (lines 128-129),
  * per-job-type row counts (lines 154-155).

A dataframe is modelled as a `List JobPosting`; pandas `groupby`
(which sorts group keys ascending) is modelled as a sorted list of
distinct keys with a mean per key; `value_counts` (sorted descending by
count) as a stable merge sort of (key, count) pairs by descending count;
`pd.merge` (inner join on one key) as a flat map pairing each left row
with the right rows having an equal key.  Numeric columns are `ℚ`.
-/

/-- One row of `freelance_dashboard_data.xlsx`, with the columns the
dashboard reads (app.py lines 44-45, 67, 78-79, 128, 154). -/
structure JobPosting where
  Price_USD : ℚ
  client_country : String
  Skill_Category : String
  Freelancer_Friction_Index : ℚ
  Job_Type : String
deriving DecidableEq, Repr

/-- Arithmetic mean of a list of rationals, as pandas `Series.mean`
computes it: sum divided by length (`0/0 = 0` in `ℚ` stands in for the
NaN pandas returns on an empty series). -/
def seriesMean (xs : List ℚ) : ℚ := xs.sum / xs.length

/-- `df.shape[0]` — overview metric `total_jobs` (app.py line 43). -/
def total_jobs (df : List JobPosting) : ℕ := df.length

/-- `df['Price_USD'].mean()` — overview metric `avg_price` (app.py line 44). -/
def avg_price (df : List JobPosting) : ℚ :=
  seriesMean (df.map (·.Price_USD))

/-- `df['client_country'].nunique()` — overview metric `unique_countries`
(app.py line 45). -/
def unique_countries (df : List JobPosting) : ℕ :=
  (df.map (·.client_country)).dedup.length

/-- The filter stage (app.py lines 71-75):
`if selected_country != 'All Countries': df_filtered = df[df['client_country'] == selected_country] else: df_filtered = df`. -/
def df_filtered (df : List JobPosting) (selected_country : String) : List JobPosting :=
  if selected_country ≠ "All Countries" then
    df.filter (fun r => r.client_country == selected_country)
  else
    df

/-- The distinct `Skill_Category` values of the dataframe, sorted
ascending, as pandas `groupby('Skill_Category')` orders its group keys. -/
def skillGroupKeys (df : List JobPosting) : List String :=
  List.insertionSort (· ≤ ·) ((df.map (·.Skill_Category)).dedup)

/-- Mean `Price_USD` over the rows of a given skill category. -/
def groupMeanPrice (df : List JobPosting) (c : String) : ℚ :=
  seriesMean ((df.filter (fun r => r.Skill_Category == c)).map (·.Price_USD))

/-- Mean `Freelancer_Friction_Index` over the rows of a given skill category. -/
def groupMeanFriction (df : List JobPosting) (c : String) : ℚ :=
  seriesMean ((df.filter (fun r => r.Skill_Category == c)).map (·.Freelancer_Friction_Index))

/-- `df_filtered.groupby('Skill_Category')['Price_USD'].mean().reset_index()`
(app.py line 78): one (category, mean price) row per group key. -/
def avg_price_by_skill (df : List JobPosting) : List (String × ℚ) :=
  (skillGroupKeys df).map (fun c => (c, groupMeanPrice df c))

/-- `df_filtered.groupby('Skill_Category')['Freelancer_Friction_Index'].mean().reset_index()`
(app.py line 79): one (category, mean friction) row per group key. -/
def avg_friction_by_skill (df : List JobPosting) : List (String × ℚ) :=
  (skillGroupKeys df).map (fun c => (c, groupMeanFriction df c))

/-- `pd.merge(avg_price_by_skill, avg_friction_by_skill, on='Skill_Category')`
(app.py line 80): inner join on the category key — each left row is
paired with every right row whose key is equal. -/
def market_analysis (df : List JobPosting) : List (String × ℚ × ℚ) :=
  (avg_price_by_skill df).flatMap (fun pc =>
    ((avg_friction_by_skill df).filter (fun fc => fc.1 == pc.1)).map
      (fun fc => (pc.1, pc.2, fc.2)))

/-- Row count for a given client country. -/
def countryJobCount (df : List JobPosting) (c : String) : ℕ :=
  (df.filter (fun r => r.client_country == c)).length

/-- The descending-count order `pandas.Series.value_counts` sorts by:
a (key, count) pair precedes another when its count is at least as
large.  Ties are left to the sort (the spec calls their order
unspecified). -/
def countDesc (a b : String × ℕ) : Prop := b.2 ≤ a.2

instance : DecidableRel countDesc := fun a b => Nat.decLe b.2 a.2

instance : IsTotal (String × ℕ) countDesc := ⟨fun a b => Nat.le_total b.2 a.2⟩

instance : IsTrans (String × ℕ) countDesc := ⟨fun _ _ _ hab hbc => le_trans hbc hab⟩

/-- `df_filtered['client_country'].value_counts().nlargest(10).reset_index()`
(app.py line 128): one (country, count) pair per distinct country,
sorted by descending count, first 10 kept. -/
def country_counts (df : List JobPosting) : List (String × ℕ) :=
  (List.insertionSort countDesc
    (((df.map (·.client_country)).dedup).map
      (fun c => (c, countryJobCount df c)))).take 10

/-- `df_filtered['Job_Type'].value_counts().reset_index()`
(app.py line 154): one (job type, count) pair per distinct job type,
sorted by descending count, no truncation. -/
def job_type_counts (df : List JobPosting) : List (String × ℕ) :=
  List.insertionSort countDesc
    (((df.map (·.Job_Type)).dedup).map
      (fun t => (t, (df.filter (fun r => r.Job_Type == t)).length)))

/-- Everything the dashboard computes for one run of the script: the
three overview metrics from the unfiltered dataframe (app.py lines
43-45) and the three aggregates from the filtered dataframe (lines
78-80, 128-129, 154-155). -/
structure DashboardState where
  total_jobs : ℕ
  avg_price : ℚ
  unique_countries : ℕ
  market_analysis : List (String × ℚ × ℚ)
  country_counts : List (String × ℕ)
  job_type_counts : List (String × ℕ)
deriving DecidableEq, Repr

/-- One full pass of the script body after a successful load (app.py
lines 43-155) for a given sidebar selection. -/
def renderDashboard (df : List JobPosting) (selected_country : String) : DashboardState :=
  { total_jobs := total_jobs df
    avg_price := avg_price df
    unique_countries := unique_countries df
    market_analysis := market_analysis (df_filtered df selected_country)
    country_counts := country_counts (df_filtered df selected_country)
    job_type_counts := job_type_counts (df_filtered df selected_country) }

/-- Outcome of `load_data()` (app.py lines 20-28): either the file is
found and read into a dataframe, or `FileNotFoundError` is caught. -/
inductive LoadResult where
  | fileFound (data : List JobPosting)
  | fileNotFound
deriving DecidableEq, Repr

/-- `load_data()` (app.py lines 20-28): returns the dataframe read from
the file, or an empty dataframe after showing `st.error` on
`FileNotFoundError`.  The boolean records whether an error message was
surfaced to the user. -/
def load_data : LoadResult → List JobPosting × Bool
  | .fileFound data => (data, false)
  | .fileNotFound => ([], true)

/-- Outcome of one run of the script: either `st.stop()` halted it
before any filtering or aggregation, or the dashboard was rendered.
Either way the boolean records whether `st.error` was shown. -/
inductive AppOutcome where
  | halted (errorShown : Bool)
  | rendered (state : DashboardState) (errorShown : Bool)
deriving DecidableEq, Repr

/-- The script prelude and body (app.py lines 30-155): load the data,
stop if the dataframe is empty (`if df.empty: st.stop()`, lines 33-34),
otherwise compute the whole dashboard. -/
def runApp (res : LoadResult) (selected_country : String) : AppOutcome :=
  let p := load_data res
  if p.1.isEmpty then .halted p.2
  else .rendered (renderDashboard p.1 selected_country) p.2

/-! ### Concrete rows used as counterexamples and witnesses -/

/-- Scenario row 1 of spec §8: price 100, country US, skill Writing,
friction 0.8, fixed price. -/
def rowA : JobPosting := ⟨100, "US", "Writing", 0.8, "Fixed"⟩

/-- Scenario row 2 of spec §8: price 300, country US, skill Dev,
friction 0.2, hourly. -/
def rowB : JobPosting := ⟨300, "US", "Dev", 0.2, "Hourly"⟩

/-- Scenario row 3 of spec §8: price 200, country IN, skill Dev,
friction 0.3, fixed price. -/
def rowC : JobPosting := ⟨200, "IN", "Dev", 0.3, "Fixed"⟩

/-- The 3-row scenario dataset of spec §8. -/
def scenarioDf : List JobPosting := [rowA, rowB, rowC]

/-- A row whose `client_country` is literally the sentinel string
`"All Countries"`. -/
def rowSentinel : JobPosting := ⟨50, "All Countries", "Writing", 0.5, "Fixed"⟩

/-! ### Helper lemmas -/

lemma df_filtered_eq_filter {v : String} (df : List JobPosting)
    (hs : v ≠ "All Countries") :
    df_filtered df v = df.filter (fun r => r.client_country == v) := by
  simp [df_filtered, hs]

lemma filter_beq_of_nodup {l : List String} (h : l.Nodup) {a : String}
    (ha : a ∈ l) : l.filter (fun x => x == a) = [a] := by
  induction l with
  | nil => cases ha
  | cons b t ih =>
      rcases List.nodup_cons.mp h with ⟨hbt, hnt⟩
      rcases List.mem_cons.mp ha with hab | hat
      · subst hab
        have ht : t.filter (fun x => x == a) = [] :=
          List.filter_eq_nil_iff.mpr (fun x hx => by
            simp only [beq_iff_eq]
            intro hxa
            exact hbt (hxa ▸ hx))
        simp [List.filter_cons, ht]
      · have hba : (b == a) = false := by
          simp only [beq_eq_false_iff_ne]
          intro hba
          exact hbt (hba ▸ hat)
        simp [List.filter_cons, hba, ih hnt hat]

lemma flatMap_eq_map_of_singleton {α β : Type} {l : List α}
    {f : α → List β} {g : α → β} (h : ∀ a ∈ l, f a = [g a]) :
    l.flatMap f = l.map g := by
  induction l with
  | nil => rfl
  | cons b t ih =>
      simp only [List.flatMap_cons, List.map_cons,
        h b (List.mem_cons_self b t),
        ih (fun a ha => h a (List.mem_cons_of_mem b ha))]
      rfl

lemma skillGroupKeys_nodup (df : List JobPosting) :
    (skillGroupKeys df).Nodup :=
  ((List.perm_insertionSort _ _).nodup_iff).mpr
    (List.nodup_dedup (df.map (·.Skill_Category)))

lemma mem_skillGroupKeys {df : List JobPosting} {c : String} :
    c ∈ skillGroupKeys df ↔ c ∈ df.map (·.Skill_Category) := by
  rw [skillGroupKeys, (List.perm_insertionSort _ _).mem_iff, List.mem_dedup]

lemma market_analysis_eq (df : List JobPosting) :
    market_analysis df = (skillGroupKeys df).map
      (fun c => (c, groupMeanPrice df c, groupMeanFriction df c)) := by
  unfold market_analysis avg_price_by_skill
  rw [List.flatMap_map]
  apply flatMap_eq_map_of_singleton
  intro c hc
  have hfil : (avg_friction_by_skill df).filter (fun fc => fc.1 == c)
      = [(c, groupMeanFriction df c)] := by
    unfold avg_friction_by_skill
    rw [List.filter_map]
    have : (skillGroupKeys df).filter
        ((fun fc : String × ℚ => fc.1 == c) ∘ (fun k => (k, groupMeanFriction df k)))
        = (skillGroupKeys df).filter (fun x => x == c) := rfl
    rw [this, filter_beq_of_nodup (skillGroupKeys_nodup df) hc]
    rfl
  simp only [hfil, List.map_cons, List.map_nil]

/-! ### Claim theorems -/

/-- C2: the Filter Stage with the sentinel selection (the string
`'All Countries'`, app.py lines 67 and 71) is the identity — same rows,
same order (app.py lines 71, 75). -/
theorem C2_filter_sentinel_identity (df : List JobPosting) :
    df_filtered df "All Countries" = df := by
  simp [df_filtered]

/-- C1 counterexample: the claim quantifies over every value present in
the `client_country` column, but when a row's country is literally the
sentinel string `"All Countries"`, the Filter Stage takes the
pass-through branch (app.py line 71) and returns rows of other
countries too.  Here `rowA` (country `"US"`) survives the filter for
the present value `"All Countries"`. -/
theorem C1_counterexample :
    "All Countries" ∈ ([rowSentinel, rowA].map (·.client_country)) ∧
    rowA ∈ df_filtered [rowSentinel, rowA] "All Countries" ∧
    rowA.client_country ≠ "All Countries" := by
  refine ⟨?_, ?_, ?_⟩
  · simp [rowSentinel, rowA]
  · simp [df_filtered]
  · decide

/-- C1 (amended): for every filter value `v` present in the
`client_country` column and distinct from the sentinel
`"All Countries"`, the Filter Stage returns exactly the rows whose
`client_country` equals `v`, as a subsequence of the input (original
relative order preserved), with no more rows than the input
(app.py lines 71-72). -/
theorem C1_filter_exact (df : List JobPosting) (v : String)
    (_hpresent : v ∈ df.map (·.client_country))
    (hv : v ≠ "All Countries") :
    (df_filtered df v).Sublist df ∧
    (∀ r ∈ df_filtered df v, r.client_country = v) ∧
    (∀ r ∈ df, r.client_country = v → r ∈ df_filtered df v) ∧
    (df_filtered df v).length ≤ df.length := by
  rw [df_filtered_eq_filter df hv]
  refine ⟨List.filter_sublist df, ?_, ?_, List.length_filter_le _ df⟩
  · intro r hr
    have := (List.mem_filter.mp hr).2
    simpa using this
  · intro r hr hc
    exact List.mem_filter.mpr ⟨hr, by simp [hc]⟩

/-- C1 witness: the amended theorem applied to the scenario dataset and
the present, non-sentinel value `"US"`. -/
theorem C1_filter_exact_witness :
    ("US" ∈ (scenarioDf.map (·.client_country)) ∧ "US" ≠ "All Countries") ∧
    ((df_filtered scenarioDf "US").Sublist scenarioDf ∧
     (∀ r ∈ df_filtered scenarioDf "US", r.client_country = "US") ∧
     (∀ r ∈ scenarioDf, r.client_country = "US" →
        r ∈ df_filtered scenarioDf "US") ∧
     (df_filtered scenarioDf "US").length ≤ scenarioDf.length) :=
  ⟨⟨by decide, by decide⟩,
   C1_filter_exact scenarioDf "US" (by decide) (by decide)⟩

/-- C3: the category-metrics aggregation (app.py lines 78-80) maps each
`Skill_Category` present in the (possibly filtered) dataframe to the
pair (mean `Price_USD` over that category's rows, mean
`Freelancer_Friction_Index` over that category's rows), and a category
with no rows does not appear in the merged table at all. -/
theorem C3_category_metrics (df : List JobPosting) (c : String) :
    (c ∈ df.map (·.Skill_Category) →
      (c, groupMeanPrice df c, groupMeanFriction df c) ∈ market_analysis df) ∧
    (c ∉ df.map (·.Skill_Category) →
      ∀ e ∈ market_analysis df, e.1 ≠ c) := by
  rw [market_analysis_eq]
  constructor
  · intro hc
    exact List.mem_map_of_mem _ (mem_skillGroupKeys.mpr hc)
  · intro hc e he hec
    rcases List.mem_map.mp he with ⟨k, hk, hke⟩
    apply hc
    rw [← mem_skillGroupKeys]
    have hkc : k = c := by rw [← hke] at hec; exact hec
    exact hkc ▸ hk

/-- C3 witness: the category `"Dev"` is present in the scenario
dataset, so the merged table contains its (mean price, mean friction)
row. -/
theorem C3_category_metrics_witness :
    ("Dev" ∈ scenarioDf.map (·.Skill_Category)) ∧
    ("Dev", groupMeanPrice scenarioDf "Dev", groupMeanFriction scenarioDf "Dev")
      ∈ market_analysis scenarioDf :=
  ⟨by simp [scenarioDf, rowA, rowB, rowC],
   (C3_category_metrics scenarioDf "Dev").1 (by simp [scenarioDf, rowA, rowB, rowC])⟩

/-- C9: the inner merge on `Skill_Category` (app.py line 80) drops no
category and duplicates none — the merged table has exactly one row per
distinct category of the (possibly filtered) dataframe, and each row
pairs a category's mean price with that same category's mean
friction. -/
theorem C9_merge_exactly_one_row_per_category (df : List JobPosting) :
    ((market_analysis df).map (·.1)).Nodup ∧
    (∀ c, c ∈ (market_analysis df).map (·.1) ↔ c ∈ df.map (·.Skill_Category)) ∧
    (∀ e ∈ market_analysis df,
      e = (e.1, groupMeanPrice df e.1, groupMeanFriction df e.1)) := by
  have hmap : ((skillGroupKeys df).map
      (fun c => (c, groupMeanPrice df c, groupMeanFriction df c))).map (·.1)
      = skillGroupKeys df := by
    rw [List.map_map]
    exact List.map_id _
  rw [market_analysis_eq]
  refine ⟨?_, ?_, ?_⟩
  · rw [hmap]; exact skillGroupKeys_nodup df
  · intro c; rw [hmap]; exact mem_skillGroupKeys
  · intro e he
    rcases List.mem_map.mp he with ⟨k, _hk, rfl⟩
    rfl

/-- C9 witness: in the scenario dataset the category `"Writing"`
appears among the merged table's keys. -/
theorem C9_merge_exactly_one_row_per_category_witness :
    "Writing" ∈ (market_analysis scenarioDf).map (·.1) :=
  ((C9_merge_exactly_one_row_per_category scenarioDf).2.1 "Writing").mpr
    (by simp [scenarioDf, rowA, rowB, rowC])

/-- C4: the country-counts aggregation (app.py lines 128-129) yields at
most 10 entries, sorted non-increasing by count, and when the dataframe
has at most 10 distinct countries, every distinct country appears with
its exact row count. -/
theorem C4_country_counts_top10 (df : List JobPosting) :
    (country_counts df).length ≤ 10 ∧
    (country_counts df).Pairwise (fun a b => b.2 ≤ a.2) ∧
    ((df.map (·.client_country)).dedup.length ≤ 10 →
      ∀ c ∈ (df.map (·.client_country)).dedup,
        (c, countryJobCount df c) ∈ country_counts df) := by
  unfold country_counts
  refine ⟨?_, ?_, ?_⟩
  · rw [List.length_take]
    exact min_le_left _ _
  · exact List.Pairwise.sublist (List.take_sublist _ _)
      (List.sorted_insertionSort countDesc _)
  · intro hlen c hc
    have hperm := List.perm_insertionSort countDesc
      (((df.map (·.client_country)).dedup).map (fun c => (c, countryJobCount df c)))
    have hlen2 : (List.insertionSort countDesc
        (((df.map (·.client_country)).dedup).map
          (fun c => (c, countryJobCount df c)))).length ≤ 10 := by
      rw [hperm.length_eq, List.length_map]
      exact hlen
    rw [List.take_of_length_le hlen2]
    exact hperm.mem_iff.mpr (List.mem_map_of_mem _ hc)

/-- C4 witness: the scenario dataset has 2 ≤ 10 distinct countries and
`"US"` appears in the country counts with its exact row count. -/
theorem C4_country_counts_top10_witness :
    ((scenarioDf.map (·.client_country)).dedup.length ≤ 10 ∧
     "US" ∈ (scenarioDf.map (·.client_country)).dedup) ∧
    ("US", countryJobCount scenarioDf "US") ∈ country_counts scenarioDf :=
  ⟨⟨by decide, by decide⟩,
   (C4_country_counts_top10 scenarioDf).2.2 (by decide) "US" (by decide)⟩

/-- C5: the aggregations are total — the category metrics of the empty
dataframe are the empty table (no error), every mean in the merged
table is taken over a non-empty group (its defining division is never
by zero rows), and the job-type counts (app.py lines 154-155) sum to
the row count of their input dataframe. -/
theorem C5_aggregation_totality (df : List JobPosting) :
    market_analysis ([] : List JobPosting) = [] ∧
    ((job_type_counts df).map (·.2)).sum = df.length ∧
    (∀ e ∈ market_analysis df,
      0 < (df.filter (fun r => r.Skill_Category == e.1)).length) := by
  refine ⟨rfl, ?_, ?_⟩
  · have hperm := (List.perm_insertionSort countDesc
      (((df.map (·.Job_Type)).dedup).map
        (fun t => (t, (df.filter (fun r => r.Job_Type == t)).length)))).map (·.2)
    rw [job_type_counts, hperm.sum_eq, List.map_map]
    have hcount : ∀ t ∈ (df.map (·.Job_Type)).dedup,
        ((fun p : String × ℕ => p.2) ∘
          (fun t => (t, (df.filter (fun r => r.Job_Type == t)).length))) t
        = List.count t (df.map (·.Job_Type)) := by
      intro t _
      show (df.filter (fun r => r.Job_Type == t)).length
        = List.count t (df.map (·.Job_Type))
      rw [List.count_eq_countP, List.countP_map, ← List.countP_eq_length_filter]
      rfl
    rw [List.map_congr_left hcount,
      List.sum_map_count_dedup_eq_length (df.map (·.Job_Type)), List.length_map]
  · intro e he
    rw [market_analysis_eq] at he
    rcases List.mem_map.mp he with ⟨k, hk, rfl⟩
    rcases List.mem_map.mp (mem_skillGroupKeys.mp hk) with ⟨r, hr, hrk⟩
    have : r ∈ df.filter (fun q => q.Skill_Category == k) :=
      List.mem_filter.mpr ⟨hr, by simp [hrk]⟩
    exact List.length_pos_of_mem this

/-- C5 witness: in the scenario dataset the `"Dev"` row of the merged
table comes from a non-empty group, and the job-type counts sum to 3. -/
theorem C5_aggregation_totality_witness :
    (("Dev", groupMeanPrice scenarioDf "Dev", groupMeanFriction scenarioDf "Dev")
       ∈ market_analysis scenarioDf) ∧
    0 < (scenarioDf.filter (fun r => r.Skill_Category == "Dev")).length := by
  have hmem : ("Dev", groupMeanPrice scenarioDf "Dev", groupMeanFriction scenarioDf "Dev")
      ∈ market_analysis scenarioDf := by
    rw [market_analysis_eq]
    exact List.mem_map_of_mem _
      (mem_skillGroupKeys.mpr (by simp [scenarioDf, rowA, rowB, rowC]))
  exact ⟨hmem, (C5_aggregation_totality scenarioDf).2.2 _ hmem⟩

/-- C6: the three overview metrics (app.py lines 43-45) are computed on
the unfiltered dataframe — `total_jobs` is always the unfiltered row
count, and all three are unchanged across filter selections. -/
theorem C6_overview_unfiltered (df : List JobPosting) (s t : String) :
    (renderDashboard df s).total_jobs = df.length ∧
    (renderDashboard df s).avg_price = avg_price df ∧
    (renderDashboard df s).unique_countries = unique_countries df ∧
    ((renderDashboard df s).total_jobs = (renderDashboard df t).total_jobs ∧
     (renderDashboard df s).avg_price = (renderDashboard df t).avg_price ∧
     (renderDashboard df s).unique_countries = (renderDashboard df t).unique_countries) :=
  ⟨rfl, rfl, rfl, rfl, rfl, rfl⟩

/-- C7 counterexample: when the file exists but loads empty, the script
halts (`st.stop()`, app.py line 34) without surfacing any error message
— `st.error` runs only in the `FileNotFoundError` branch (app.py line
27).  The claim's "surfaces a DataUnavailable-style error" is therefore
false for the empty-after-load failure. -/
theorem C7_counterexample :
    runApp (LoadResult.fileFound []) "US" = AppOutcome.halted false ∧
    runApp LoadResult.fileNotFound "US" = AppOutcome.halted true := ⟨rfl, rfl⟩

/-- C7 (amended): whenever the load fails (file missing, or empty after
load), the script halts before any filtering, aggregation or chart
rendering; a visible error message is surfaced exactly when the file
was missing — an empty-after-load dataframe halts silently. -/
theorem C7_halt_on_load_failure (res : LoadResult) (s : String)
    (hfail : (load_data res).1 = []) :
    runApp res s = AppOutcome.halted (load_data res).2 ∧
    ((load_data res).2 = true ↔ res = LoadResult.fileNotFound) := by
  cases res with
  | fileFound d =>
      have hd : d = [] := hfail
      subst hd
      exact ⟨rfl, by simp [load_data]⟩
  | fileNotFound =>
      exact ⟨rfl, by simp [load_data]⟩

/-- C7 witness: the amended theorem applied to the empty-after-load
failure. -/
theorem C7_halt_on_load_failure_witness :
    ((load_data (LoadResult.fileFound [])).1 = []) ∧
    (runApp (LoadResult.fileFound []) "US"
        = AppOutcome.halted (load_data (LoadResult.fileFound [])).2 ∧
     ((load_data (LoadResult.fileFound [])).2 = true
        ↔ LoadResult.fileFound [] = LoadResult.fileNotFound)) :=
  ⟨rfl, C7_halt_on_load_failure (LoadResult.fileFound []) "US" rfl⟩

/-- C10: every run that reaches the overview metrics (i.e. renders the
dashboard) has a non-empty loaded dataframe — the script stops first
otherwise (app.py lines 33-34) — so the mean of `Price_USD` (app.py
line 44) divides by a non-zero row count. -/
theorem C10_rendered_implies_nonempty (res : LoadResult) (s : String)
    (st : DashboardState) (e : Bool)
    (h : runApp res s = AppOutcome.rendered st e) :
    (load_data res).1 ≠ [] ∧
    (((load_data res).1.map (·.Price_USD)).length : ℚ) ≠ 0 := by
  by_cases hem : (load_data res).1.isEmpty
  · exfalso
    simp [runApp, hem] at h
  · constructor
    · intro hnil
      apply hem
      rw [hnil]
      rfl
    · have hpos : 0 < (load_data res).1.length := by
        cases hl : (load_data res).1 with
        | nil => exact absurd (by rw [hl]; rfl) hem
        | cons a t => simp
      rw [List.length_map]
      exact Nat.cast_ne_zero.mpr (Nat.pos_iff_ne_zero.mp hpos)

/-- C10 witness: a one-row load renders the dashboard, and its price
column has non-zero length. -/
theorem C10_rendered_implies_nonempty_witness :
    (runApp (LoadResult.fileFound [rowA]) "US"
        = AppOutcome.rendered (renderDashboard [rowA] "US") false) ∧
    ((load_data (LoadResult.fileFound [rowA])).1 ≠ [] ∧
     (((load_data (LoadResult.fileFound [rowA])).1.map (·.Price_USD)).length : ℚ) ≠ 0) :=
  ⟨rfl, C10_rendered_implies_nonempty (LoadResult.fileFound [rowA]) "US"
    (renderDashboard [rowA] "US") false rfl⟩

/-- C8: on the 3-row scenario dataset of spec §8, the overview metrics
are total_jobs = 3, avg_price = 200, unique_countries = 2; after
filtering to "US" the merged category metrics pair Writing with
(100, 0.8) and Dev with (300, 0.2), and the job-type counts are
Fixed ↦ 1 and Hourly ↦ 1. -/
theorem C8_scenario :
    total_jobs scenarioDf = 3 ∧
    avg_price scenarioDf = 200 ∧
    unique_countries scenarioDf = 2 ∧
    market_analysis (df_filtered scenarioDf "US")
      = [("Dev", 300, 0.2), ("Writing", 100, 0.8)] ∧
    job_type_counts (df_filtered scenarioDf "US")
      = [("Fixed", 1), ("Hourly", 1)] := by
  have h1 : df_filtered scenarioDf "US" = [rowA, rowB] := by
    simp [df_filtered, scenarioDf, rowA, rowB, rowC]
  refine ⟨by decide, ?_, by decide, ?_, ?_⟩
  · simp [avg_price, seriesMean, scenarioDf, rowA, rowB, rowC]
    norm_num
  · have h2 : skillGroupKeys [rowA, rowB] = ["Dev", "Writing"] := by
      simp [skillGroupKeys, rowA, rowB, List.insertionSort, List.orderedInsert]
      decide
    have hpD : groupMeanPrice [rowA, rowB] "Dev" = 300 := by
      simp [groupMeanPrice, seriesMean, rowA, rowB]
    have hpW : groupMeanPrice [rowA, rowB] "Writing" = 100 := by
      simp [groupMeanPrice, seriesMean, rowA, rowB]
    have hfD : groupMeanFriction [rowA, rowB] "Dev" = 0.2 := by
      simp [groupMeanFriction, seriesMean, rowA, rowB]
    have hfW : groupMeanFriction [rowA, rowB] "Writing" = 0.8 := by
      simp [groupMeanFriction, seriesMean, rowA, rowB]
    rw [h1]
    simp only [market_analysis, avg_price_by_skill, avg_friction_by_skill, h2,
      hpD, hpW, hfD, hfW, List.map_cons, List.map_nil]
    simp [List.filter_cons]
  · rw [h1]
    simp [job_type_counts, rowA, rowB, List.insertionSort, List.orderedInsert,
      countDesc]
